import Mathlib

/-!
Shallow embedding of the 2FA / device-registration core of the
password-manager repository (Next.js route handlers plus crypto helpers).

Each namespace below corresponds to one route file of the source.  Mongo
operations are modelled over plain lists: findOne is the first list
element matching the query predicate, updateOne rewrites the first
matching element in place, and the positional update of an array field
rewrites the first matching array element.  Wall-clock time is passed
explicitly as a natural number (milliseconds), and every value produced
by a random source (registration codes, verification codes, UUIDs) is
passed in as an explicit argument of the handler.
-/

namespace PM

/-- Status values stored in the status field of a challenge document. -/
inductive Status where
  | pending
  | approved
  | rejected
  | expired
  | completed
  | used
deriving DecidableEq, Repr

/-- Device subdocument as pushed by the device-registration POST handler. -/
structure Device where
  id : String
  name : String
  publicKey : String
  lastUsed : Nat
  createdAt : Nat
  isVerified : Bool
  registrationCode : Option String
deriving DecidableEq, Repr

/-- User document: union of the fields the modelled handlers read or write.
Fields that a handler may find absent on a document are Options; a field
that is absent serializes to an absent JSON key. -/
structure User where
  id : String
  username : String
  email : String
  masterPassword : Option String := none
  passwordHash : Option String := none
  passwordSalt : Option String := none
  securityAnswer : Option String := none
  twoFactorEnabled : Bool := false
  deviceRegistrationRequired : Bool := false
  devices : List Device := []
  lastLoginAt : Nat := 0
  lastPasswordChangeAt : Option Nat := none
  updatedAt : Nat := 0
deriving DecidableEq, Repr

/-- Challenge document of the challenges collection.  The login route
stores the code under the key code, while the challenge-creation route
stores it under verificationCode; both are kept as optional fields of the
one schemaless document. -/
structure Challenge where
  id : String
  userId : String
  deviceId : Option String := none
  code : Option String := none
  verificationCode : Option String := none
  isPasswordReset : Bool := false
  status : Status := .pending
  createdAt : Nat := 0
  expiresAt : Nat
  completedAt : Option Nat := none
deriving DecidableEq, Repr

/-- Challenge document of the authChallenges collection (signature
mechanism): carries a nonce in the challenge field and a mandatory
device binding. -/
structure AuthChallenge where
  id : String
  userId : String
  deviceId : String
  challenge : String
  createdAt : Nat := 0
  expiresAt : Nat
  status : Status := .pending
deriving DecidableEq, Repr

/-- Mongo updateOne: rewrite the first element satisfying the query
predicate, leave everything else untouched. -/
def updateOne (p : α → Bool) (f : α → α) : List α → List α
  | [] => []
  | a :: as => if p a then f a :: as else a :: updateOne p f as

@[simp]
theorem updateOne_nil (p : α → Bool) (f : α → α) : updateOne p f [] = [] := rfl

theorem updateOne_cons (p : α → Bool) (f : α → α) (a : α) (as : List α) :
    updateOne p f (a :: as) = if p a then f a :: as else a :: updateOne p f as := rfl

end PM

namespace PM.ServerCrypto

/-- lib/server/crypto.ts and lib/crypto.ts, generateVerificationCode:
fills a one-element Uint8Array from the secure random source, so the raw
random input is a single byte, then computes 100000 plus that byte
modulo 900000 and renders it in decimal. -/
def generateVerificationCode (byte : Fin 256) : String :=
  toString (100000 + byte.val % 900000)

end PM.ServerCrypto

namespace PM.DevicesRoute

open PM

/-- api/users/devices/route.ts, generateRegistrationCode: floor of
100000 plus Math.random times 900000, rendered in decimal.  The raw
random input is modelled as the resulting offset below 900000. -/
def generateRegistrationCode (rand : Fin 900000) : String :=
  toString (100000 + rand.val)

/-- Response body of the device-registration POST handler. -/
structure PostResponse where
  success : Bool
  error : Option String := none
  device : Option Device := none
  registrationCode : Option String := none
deriving DecidableEq, Repr

/-- api/users/devices/route.ts POST: begin device registration.  Finds
the user by id, pushes a fresh unverified device carrying the generated
registration code, and sets twoFactorEnabled to true on the user.  The
generated code, the generated device UUID and the current time are
explicit arguments. -/
def POST (users : List User) (userId deviceName publicKey : String)
    (regCode devUuid : String) (now : Nat) : PostResponse × List User :=
  if userId = "" ∨ deviceName = "" ∨ publicKey = "" then
    ({ success := false, error := some "Missing required fields" }, users)
  else
    match users.find? (fun u => u.id = userId) with
    | none => ({ success := false, error := some "User not found" }, users)
    | some _ =>
      let newDevice : Device :=
        { id := devUuid, name := deviceName, publicKey := publicKey,
          lastUsed := now, createdAt := now, isVerified := false,
          registrationCode := some regCode }
      let users' := updateOne (fun u => u.id = userId)
        (fun u => { u with devices := u.devices ++ [newDevice],
                           twoFactorEnabled := true, updatedAt := now }) users
      ({ success := true, device := some newDevice,
         registrationCode := some regCode }, users')

/-- Response body of the device-deletion DELETE handler. -/
structure DeleteResponse where
  success : Bool
  error : Option String := none
deriving DecidableEq, Repr

/-- api/users/devices/route.ts DELETE: reads the user, pulls the device
with the given id from the devices array, then — if the remaining device
list computed from the read user document is empty — clears
twoFactorEnabled with a second update. -/
def DELETE (users : List User) (userId deviceId : String) (now : Nat) :
    DeleteResponse × List User :=
  if userId = "" ∨ deviceId = "" then
    ({ success := false, error := some "User ID and Device ID are required" }, users)
  else
    match users.find? (fun u => u.id = userId) with
    | none => ({ success := false, error := some "User not found" }, users)
    | some user =>
      let afterPull := updateOne (fun u => u.id = userId)
        (fun u => { u with devices := u.devices.filter (fun d => ¬ d.id = deviceId),
                           updatedAt := now }) users
      let remaining := user.devices.filter (fun d => ¬ d.id = deviceId)
      let final :=
        if remaining.isEmpty then
          updateOne (fun u => u.id = userId)
            (fun u => { u with twoFactorEnabled := false }) afterPull
        else afterPull
      ({ success := true }, final)

end PM.DevicesRoute

namespace PM.DevicesVerify

open PM

/-- Response body of the device-verification POST handler. -/
structure PostResponse where
  success : Bool
  error : Option String := none
  deviceId : Option String := none
deriving DecidableEq, Repr

/-- api/users/devices/verify/route.ts POST: complete device
registration.  Finds the first user owning an unverified device whose
registrationCode equals the submitted code, picks that user's first
device holding the code, and rewrites that first matching device in
place: verified, renamed, re-keyed with the publicKey supplied now, code
cleared. -/
def POST (users : List User) (registrationCode deviceName publicKey : String)
    (now : Nat) : PostResponse × List User :=
  if registrationCode = "" ∨ deviceName = "" ∨ publicKey = "" then
    ({ success := false, error := some "Missing required fields" }, users)
  else
    match users.find? (fun u => u.devices.any
        (fun d => d.registrationCode = some registrationCode ∧ d.isVerified = false)) with
    | none => ({ success := false, error := some "Invalid registration code" }, users)
    | some user =>
      match user.devices.find? (fun d => d.registrationCode = some registrationCode) with
      | none => ({ success := false, error := some "Invalid registration code" }, users)
      | some device =>
        let verifyDev : Device → Device := fun d =>
          { d with isVerified := true, name := deviceName, publicKey := publicKey,
                   lastUsed := now, registrationCode := none }
        let users' := updateOne
          (fun u => u.id = user.id ∧ u.devices.any
            (fun d => d.registrationCode = some registrationCode))
          (fun u => { u with devices := updateOne (fun d => d.registrationCode = some registrationCode) verifyDev u.devices })
          users
        ({ success := true, deviceId := some device.id }, users')

end PM.DevicesVerify

namespace PM.LoginRoute

open PM

/-- Response body of the login POST handler (plaintext-compare variant):
on success the handler serializes the user document as read from the
store, unprojected. -/
structure PostResponse where
  success : Bool
  error : Option String := none
  user : Option User := none
  requiresTwoFactor : Bool := false
  verificationCode : Option String := none
  challengeId : Option String := none
deriving DecidableEq, Repr

/-- api/users/login/route.ts POST (first variant): finds the user by
username, compares masterPassword with the submitted password directly,
and on a 2FA-enabled account inserts a pending challenge expiring five
minutes out and returns the raw user document together with the code. -/
def POST (users : List User) (challenges : List Challenge)
    (username password : String) (verificationCode challengeUuid : String)
    (now : Nat) : PostResponse × List Challenge :=
  match users.find? (fun u => u.username = username) with
  | none => ({ success := false, error := some "User not found" }, challenges)
  | some user =>
    if ¬ user.masterPassword = some password then
      ({ success := false, error := some "Invalid password" }, challenges)
    else if user.twoFactorEnabled then
      let challenge : Challenge :=
        { id := challengeUuid, userId := user.id,
          deviceId := (user.devices.head?).map (fun d => d.id),
          code := some verificationCode, status := .pending,
          createdAt := now, expiresAt := now + 5 * 60 * 1000 }
      ({ success := true, user := some user, requiresTwoFactor := true,
         verificationCode := some verificationCode,
         challengeId := some challenge.id }, challenges ++ [challenge])
    else
      ({ success := true, user := some user }, challenges)

/-- Projection serialized by the second login variant on success. -/
structure SafeUser where
  id : String
  username : String
  email : String
  twoFactorEnabled : Bool
  devices : List Device
deriving DecidableEq, Repr

/-- Response body of the login POST handler (hash-compare variant). -/
structure PostV2Response where
  success : Bool
  error : Option String := none
  user : Option SafeUser := none
  requiresTwoFactor : Bool := false
  verificationCode : Option String := none
  challengeId : Option String := none
deriving DecidableEq, Repr

/-- api/users/login/route.ts POST (second variant): same flow but the
password check goes through verifyPassword over the stored hash and
salt, and the response carries the id/username/email/flag/devices
projection.  The hash function is passed in to stand for PBKDF2. -/
def POSTv2 (hash : String → String → String) (users : List User)
    (challenges : List Challenge) (username password : String)
    (verificationCode challengeUuid : String) (now : Nat) :
    PostV2Response × List Challenge :=
  match users.find? (fun u => u.username = username) with
  | none => ({ success := false, error := some "User not found" }, challenges)
  | some user =>
    if ¬ hash password (user.passwordSalt.getD "") = user.passwordHash.getD "" then
      ({ success := false, error := some "Invalid password" }, challenges)
    else
      let safe : SafeUser :=
        { id := user.id, username := user.username, email := user.email,
          twoFactorEnabled := user.twoFactorEnabled, devices := user.devices }
      if user.twoFactorEnabled then
        let challenge : Challenge :=
          { id := challengeUuid, userId := user.id,
            deviceId := (user.devices.head?).map (fun d => d.id),
            code := some verificationCode, status := .pending,
            createdAt := now, expiresAt := now + 5 * 60 * 1000 }
        ({ success := true, user := some safe, requiresTwoFactor := true,
           verificationCode := some verificationCode,
           challengeId := some challenge.id }, challenges ++ [challenge])
      else
        ({ success := true, user := some safe }, challenges)

end PM.LoginRoute

namespace PM.ResetPasswordRoute

open PM

/-- Response body of the reset-password POST handler. -/
structure PostResponse where
  success : Bool
  error : Option String := none
  user : Option User := none
deriving DecidableEq, Repr

/-- api/users/reset-password/route.ts POST: finds the user by username
and email, checks the security answer, writes the new password into the
masterPassword field, and returns the user document with masterPassword
re-assigned to the new password after destructuring it away. -/
def POST (users : List User) (username email securityAnswer newPassword : String)
    (now : Nat) : PostResponse × List User :=
  match users.find? (fun u => u.username = username ∧ u.email = email) with
  | none =>
    ({ success := false, error := some "User not found or email does not match" }, users)
  | some user =>
    if ¬ user.securityAnswer = some securityAnswer then
      ({ success := false, error := some "Incorrect security answer" }, users)
    else
      let users' := updateOne (fun u => u.id = user.id)
        (fun u => { u with masterPassword := some newPassword, updatedAt := now }) users
      if users.any (fun u => u.id = user.id) then
        ({ success := true,
           user := some { user with masterPassword := some newPassword } }, users')
      else
        ({ success := false, error := some "User not found for update" }, users')

end PM.ResetPasswordRoute

namespace PM.ChallengesRoute

open PM

/-- Response body of the challenge-approval PUT handler. -/
structure PutResponse where
  success : Bool
  error : Option String := none
deriving DecidableEq, Repr

/-- api/users/auth-challenge/route.ts PUT of the challenges-collection
variant: looks the challenge up by id, falling back to a lookup by
verification code; rejects a non-pending challenge; persists expiry when
the deadline passed; checks that the submitted deviceId and userId equal
the challenge bindings; and then marks the challenge approved without
inspecting the submitted response value at all (the source reads, quote,
for now we just accept any response). -/
def PUT (challenges : List Challenge)
    (challengeId response deviceId userId : String) (now : Nat) :
    PutResponse × List Challenge :=
  let found :=
    match challenges.find? (fun c => c.id = challengeId) with
    | some c => some c
    | none => challenges.find? (fun c => c.verificationCode = some challengeId)
  match found with
  | none => ({ success := false, error := some "Challenge not found" }, challenges)
  | some challenge =>
    if ¬ challenge.status = Status.pending then
      ({ success := false, error := some "Challenge is no longer valid" }, challenges)
    else if now > challenge.expiresAt then
      ({ success := false, error := some "Challenge has expired" },
       updateOne (fun c => c.id = challenge.id)
         (fun c => { c with status := .expired }) challenges)
    else if ¬ challenge.deviceId = some deviceId ∨ ¬ challenge.userId = userId then
      ({ success := false, error := some "Invalid device or user" }, challenges)
    else
      ({ success := true },
       updateOne (fun c => c.id = challenge.id)
         (fun c => { c with status := .approved }) challenges)

/-- Response body of the challenge-status GET handler. -/
structure GetResponse where
  success : Bool
  error : Option String := none
  status : Option Status := none
  expiresAt : Option Nat := none
deriving DecidableEq, Repr

/-- api/users/auth-challenge/route.ts GET of the challenges-collection
variant: returns the stored status and expiry of the challenge; the
handler issues no write. -/
def GET (challenges : List Challenge) (challengeId : String) :
    GetResponse × List Challenge :=
  if challengeId = "" then
    ({ success := false, error := some "Challenge ID is required" }, challenges)
  else
    match challenges.find? (fun c => c.id = challengeId) with
    | none => ({ success := false, error := some "Challenge not found" }, challenges)
    | some challenge =>
      ({ success := true, status := some challenge.status,
         expiresAt := some challenge.expiresAt }, challenges)

end PM.ChallengesRoute

namespace PM.CompleteAuth

open PM

/-- Response body of the complete-authentication POST handler. -/
structure PostResponse where
  success : Bool
  error : Option String := none
  user : Option User := none
deriving DecidableEq, Repr

/-- api/users/complete-auth/route.ts POST: finds the challenge by id and
rejects it when the deadline passed.  For a login challenge the stored
status must be approved; for a password-reset challenge the submitted
verification code must equal the stored one and the status is not
consulted.  It then marks the challenge completed, stamps the user's
last login, on a login challenge force-sets twoFactorEnabled to true and
deviceRegistrationRequired to false on the stored user, and answers with
the user document read before the update, masterPassword dropped but all
other fields kept, with the two flags overwritten in the response
object. -/
def POST (users : List User) (challenges : List Challenge)
    (challengeId : String) (verificationCode : Option String) (now : Nat) :
    PostResponse × List User × List Challenge :=
  if challengeId = "" then
    ({ success := false, error := some "Missing required field: challengeId" },
     users, challenges)
  else
    match challenges.find? (fun c => c.id = challengeId) with
    | none => ({ success := false, error := some "Challenge not found" }, users, challenges)
    | some challenge =>
      if now > challenge.expiresAt then
        ({ success := false, error := some "Challenge expired" }, users, challenges)
      else
        let isLogin := ¬ challenge.isPasswordReset
        if isLogin ∧ ¬ challenge.status = Status.approved then
          ({ success := false, error := some "Challenge not yet approved" },
           users, challenges)
        else if ¬ isLogin ∧ verificationCode = none then
          ({ success := false, error := some "Missing required field: verificationCode" },
           users, challenges)
        else if ¬ isLogin ∧ ¬ challenge.verificationCode = verificationCode then
          ({ success := false, error := some "Invalid verification code" },
           users, challenges)
        else
          match users.find? (fun u => u.id = challenge.userId) with
          | none => ({ success := false, error := some "User not found" }, users, challenges)
          | some user =>
            let challenges' := updateOne (fun c => c.id = challenge.id)
              (fun c => { c with status := .completed, completedAt := some now })
              challenges
            let users' := updateOne (fun u => u.id = user.id)
              (fun u =>
                { u with lastLoginAt := now, updatedAt := now,
                         twoFactorEnabled := if isLogin then true else u.twoFactorEnabled,
                         deviceRegistrationRequired :=
                           if isLogin then false else u.deviceRegistrationRequired })
              users
            let secureUser := { user with masterPassword := none,
                                          twoFactorEnabled := true,
                                          deviceRegistrationRequired := false }
            ({ success := true, user := some secureUser }, users', challenges')

end PM.CompleteAuth

namespace PM.ResetPasswordV2

open PM

/-- Response body of the challenge-gated reset-password POST handler. -/
structure PostResponse where
  success : Bool
  error : Option String := none
deriving DecidableEq, Repr

/-- Challenge-gated reset-password POST handler (the hashed-password
variant of the route): finds the user by username and email; when the
account has 2FA enabled it requires a password-reset challenge bound to
the user, accepts it either because the literal code approved was
submitted and the stored status is approved, or because the submitted
code equals the stored verification code with the stored status not
consulted; rejects a past-deadline challenge; marks the challenge used;
and rewrites passwordHash from the submitted new password and the stored
salt.  The hash function stands for PBKDF2. -/
def POST (hash : String → String → String) (users : List User)
    (challenges : List Challenge) (username email newPassword : String)
    (challengeId verificationCode : Option String) (now : Nat) :
    PostResponse × List User × List Challenge :=
  if username = "" ∨ email = "" ∨ newPassword = "" then
    ({ success := false, error := some "Missing required fields" }, users, challenges)
  else
    match users.find? (fun u => u.username = username ∧ u.email = email) with
    | none => ({ success := false, error := some "User not found" }, users, challenges)
    | some user =>
      let applyPw : List User → List User := fun us =>
        updateOne (fun u => u.id = user.id)
          (fun u => { u with passwordHash := some (hash newPassword (user.passwordSalt.getD "")),
                             lastPasswordChangeAt := some now, updatedAt := now }) us
      if user.twoFactorEnabled then
        match challengeId, verificationCode with
        | some cid, some vc =>
          match challenges.find? (fun c => c.id = cid ∧ c.userId = user.id ∧
              c.isPasswordReset = true) with
          | none => ({ success := false, error := some "Invalid challenge" }, users, challenges)
          | some challenge =>
            if vc = "approved" ∧ ¬ challenge.status = Status.approved then
              ({ success := false, error := some "Challenge not yet approved" },
               users, challenges)
            else if ¬ vc = "approved" ∧ ¬ challenge.verificationCode = some vc then
              ({ success := false, error := some "Invalid verification code" },
               users, challenges)
            else if now > challenge.expiresAt then
              ({ success := false, error := some "Challenge expired" }, users, challenges)
            else
              let challenges' := updateOne (fun c => c.id = cid)
                (fun c => { c with status := .used }) challenges
              ({ success := true }, applyPw users, challenges')
        | _, _ =>
          ({ success := false, error := some "Authentication required" }, users, challenges)
      else
        ({ success := true }, applyPw users, challenges)

end PM.ResetPasswordV2

namespace PM.DeviceRegistry

open PM

/-- One Device Registry operation, with the values drawn from the random
source (registration code, device UUID) and the clock as explicit
payload. -/
inductive Op where
  | beginReg (userId deviceName publicKey regCode devUuid : String) (now : Nat)
  | completeReg (registrationCode deviceName publicKey : String) (now : Nat)
  | removeDevice (userId deviceId : String) (now : Nat)

/-- State reached in the users collection after one registry operation. -/
def applyOp (users : List User) : Op → List User
  | .beginReg userId deviceName publicKey regCode devUuid now =>
      (DevicesRoute.POST users userId deviceName publicKey regCode devUuid now).2
  | .completeReg registrationCode deviceName publicKey now =>
      (DevicesVerify.POST users registrationCode deviceName publicKey now).2
  | .removeDevice userId deviceId now =>
      (DevicesRoute.DELETE users userId deviceId now).2

/-- State reached after a sequence of registry operations. -/
def run (users : List User) (ops : List Op) : List User :=
  ops.foldl applyOp users

end PM.DeviceRegistry

namespace PM

/-- The invariant claimed by the spec for one account: a 2FA-enabled
account has at least one verified device. -/
def VerifiedDeviceInv (u : User) : Prop :=
  u.twoFactorEnabled = true → ∃ d ∈ u.devices, d.isVerified = true

instance (u : User) : Decidable (VerifiedDeviceInv u) :=
  inferInstanceAs (Decidable (u.twoFactorEnabled = true → ∃ d ∈ u.devices, d.isVerified = true))

/-- The invariant the code actually maintains for one account: the
2FA flag tracks whether the device list is nonempty, regardless of
verification state. -/
def TwoFactorFlagInv (u : User) : Prop :=
  u.twoFactorEnabled = !u.devices.isEmpty

instance (u : User) : Decidable (TwoFactorFlagInv u) :=
  inferInstanceAs (Decidable (u.twoFactorEnabled = !u.devices.isEmpty))

end PM

namespace PM.Examples

open PM

/-- A freshly registered account: no devices, 2FA off. -/
def freshUser : User :=
  { id := "u1", username := "alice", email := "alice@x.com",
    masterPassword := some "Str0ngPass" }

/-- A verified device. -/
def verifiedDev : Device :=
  { id := "d1", name := "phone", publicKey := "pkA", lastUsed := 0,
    createdAt := 0, isVerified := true, registrationCode := none }

/-- An unverified device still holding its registration code. -/
def pendingDev : Device :=
  { id := "d2", name := "tablet", publicKey := "pkB", lastUsed := 0,
    createdAt := 0, isVerified := false, registrationCode := some "111111" }

/-- Account holding one verified and one unverified device, 2FA on. -/
def mixedUser : User :=
  { id := "u1", username := "alice", email := "alice@x.com",
    twoFactorEnabled := true, devices := [verifiedDev, pendingDev] }

/-- Account with a plaintext master password and 2FA off. -/
def bobUser : User :=
  { id := "u2", username := "bob", email := "bob@x.com",
    masterPassword := some "hunter2" }

/-- Account with a security answer, for the reset-password route. -/
def carolUser : User :=
  { id := "u3", username := "carol", email := "carol@x.com",
    masterPassword := some "oldpw", securityAnswer := some "blue" }

/-- Account carrying a stored password hash and salt. -/
def daveUser : User :=
  { id := "u4", username := "dave", email := "dave@x.com",
    passwordHash := some "deadbeef", passwordSalt := some "s4lt",
    twoFactorEnabled := true }

/-- Pending, unexpired challenge bound to device d1 of account u1. -/
def pendingChallenge : Challenge :=
  { id := "c1", userId := "u1", deviceId := some "d1",
    verificationCode := some "222222", status := .pending,
    createdAt := 0, expiresAt := 300000 }

/-- Approved login challenge for account u4. -/
def approvedChallenge : Challenge :=
  { id := "c2", userId := "u4", deviceId := some "d1",
    verificationCode := some "222222", status := .approved,
    createdAt := 0, expiresAt := 300000 }

/-- Rejected password-reset challenge for account u4. -/
def rejectedResetChallenge : Challenge :=
  { id := "c3", userId := "u4", deviceId := some "d1",
    verificationCode := some "333333", isPasswordReset := true,
    status := .rejected, createdAt := 0, expiresAt := 300000 }

/-- Pending challenge whose deadline (100 ms) is long past. -/
def stalePendingChallenge : Challenge :=
  { id := "c4", userId := "u1", deviceId := some "d1",
    verificationCode := some "444444", status := .pending,
    createdAt := 0, expiresAt := 100 }

/-- Account already holding a pending device whose registration code is
111111, used to exhibit a registration-code collision. -/
def collideUser : User :=
  { id := "u1", username := "alice", email := "alice@x.com",
    twoFactorEnabled := true, devices := [pendingDev] }

/-- An operation sequence exercising all three registry operations. -/
def demoOps : List DeviceRegistry.Op :=
  [ .beginReg "u1" "phone" "pkA" "123456" "d1" 1,
    .completeReg "123456" "phone" "pkA" 2,
    .beginReg "u1" "tablet" "pkB" "654321" "d2" 3,
    .removeDevice "u1" "d1" 4,
    .removeDevice "u1" "d2" 5 ]

end PM.Examples

namespace PM

/-- A successful findOne splits the collection into a prefix of
non-matching documents, the matched document, and a suffix. -/
theorem find?_split (p : α → Bool) {l : List α} {x : α} (h : l.find? p = some x) :
    ∃ l₁ l₂, l = l₁ ++ x :: l₂ ∧ (∀ y ∈ l₁, p y = false) ∧ p x = true := by
  induction l with
  | nil => simp at h
  | cons a as ih =>
    by_cases hpa : p a = true
    · rw [List.find?_cons_of_pos _ hpa] at h
      obtain rfl : a = x := by injection h
      exact ⟨[], as, rfl, by simp, hpa⟩
    · rw [List.find?_cons_of_neg _ (by simpa using hpa)] at h
      obtain ⟨l₁, l₂, rfl, hl₁, hx⟩ := ih h
      refine ⟨a :: l₁, l₂, rfl, ?_, hx⟩
      intro y hy
      rcases List.mem_cons.mp hy with rfl | hy
      · simpa using hpa
      · exact hl₁ y hy

/-- updateOne rewrites exactly the head of the matching suffix. -/
theorem updateOne_append_left (p : α → Bool) (f : α → α) {l₁ : List α} {z : α}
    (l₂ : List α) (h₁ : ∀ y ∈ l₁, p y = false) (hz : p z = true) :
    updateOne p f (l₁ ++ z :: l₂) = l₁ ++ f z :: l₂ := by
  induction l₁ with
  | nil => simp [updateOne_cons, hz]
  | cons a l₁ ih =>
    have ha : p a = false := h₁ a (List.mem_cons_self a l₁)
    simp only [List.cons_append, updateOne_cons, ha, Bool.false_eq_true, if_false]
    rw [ih (fun y hy => h₁ y (List.mem_cons_of_mem a hy))]

/-- findOne over a matching suffix headed by a match returns that head. -/
theorem find?_append_left (p : α → Bool) {l₁ : List α} {z : α}
    (l₂ : List α) (h₁ : ∀ y ∈ l₁, p y = false) (hz : p z = true) :
    (l₁ ++ z :: l₂).find? p = some z := by
  induction l₁ with
  | nil => simp [List.find?_cons_of_pos _ hz]
  | cons a l₁ ih =>
    have ha : p a = false := h₁ a (List.mem_cons_self a l₁)
    rw [List.cons_append, List.find?_cons_of_neg _ (by simp [ha])]
    exact ih (fun y hy => h₁ y (List.mem_cons_of_mem a hy))

/-- updateOne never changes whether the collection is empty. -/
theorem updateOne_isEmpty (p : α → Bool) (f : α → α) (l : List α) :
    (updateOne p f l).isEmpty = l.isEmpty := by
  cases l with
  | nil => rfl
  | cons a as =>
    rw [updateOne_cons]
    split <;> rfl

/-- The two sequential store updates of the device-deletion handler
collapse to a single first-match rewrite: drop the device, stamp
updatedAt, and clear the 2FA flag exactly when no device at all is
left. -/
theorem DELETE_spec (users : List User) (userId deviceId : String) (now : Nat)
    {user : User} (hu : ¬ userId = "") (hd : ¬ deviceId = "")
    (h : users.find? (fun u => u.id = userId) = some user) :
    DevicesRoute.DELETE users userId deviceId now =
      ({ success := true },
       updateOne (fun u => u.id = userId)
         (fun u =>
           { u with devices := u.devices.filter (fun d => ¬ d.id = deviceId),
                    updatedAt := now,
                    twoFactorEnabled :=
                      if (u.devices.filter (fun d => ¬ d.id = deviceId)).isEmpty
                      then false else u.twoFactorEnabled }) users) := by
  obtain ⟨l₁, l₂, rfl, hl₁, hx⟩ := find?_split (fun (u : User) => u.id = userId) h
  have hid : user.id = userId := by simpa using hx
  simp only [DevicesRoute.DELETE, hu, hd, or_self, if_false, h]
  have hpull := updateOne_append_left (fun (u : User) => u.id = userId)
    (fun u => { u with devices := u.devices.filter (fun d => ¬ d.id = deviceId),
                       updatedAt := now }) l₂ hl₁ hx
  rw [hpull]
  by_cases hrem : (user.devices.filter (fun d => ¬ d.id = deviceId)).isEmpty = true
  · rw [if_pos hrem]
    have hflag := updateOne_append_left (fun (u : User) => u.id = userId)
      (fun u => { u with twoFactorEnabled := false })
      (z := { user with devices := user.devices.filter (fun d => ¬ d.id = deviceId),
                        updatedAt := now }) l₂ hl₁ (by simpa using hid)
    rw [hflag]
    rw [updateOne_append_left (fun (u : User) => u.id = userId) _ l₂ hl₁ hx, if_pos hrem]
  · rw [if_neg hrem]
    rw [updateOne_append_left (fun (u : User) => u.id = userId) _ l₂ hl₁ hx, if_neg hrem]

/-- Every element of an updateOne result is an original element or the
image of an original element. -/
theorem mem_updateOne {p : α → Bool} {f : α → α} {l : List α} {u : α}
    (hu : u ∈ updateOne p f l) : u ∈ l ∨ ∃ x ∈ l, u = f x := by
  induction l with
  | nil => simp at hu
  | cons a as ih =>
    rw [updateOne_cons] at hu
    by_cases hpa : p a = true
    · rw [if_pos hpa] at hu
      rcases List.mem_cons.mp hu with rfl | hmem
      · exact Or.inr ⟨a, List.mem_cons_self a as, rfl⟩
      · exact Or.inl (List.mem_cons_of_mem a hmem)
    · rw [if_neg hpa] at hu
      rcases List.mem_cons.mp hu with rfl | hmem
      · exact Or.inl (List.mem_cons_self u as)
      · rcases ih hmem with h1 | ⟨x, hx, rfl⟩
        · exact Or.inl (List.mem_cons_of_mem a h1)
        · exact Or.inr ⟨x, List.mem_cons_of_mem a hx, rfl⟩

/-- One Device Registry operation preserves the flag-tracks-devices
invariant on every account of the store. -/
theorem twoFactorFlagInv_applyOp (users : List User) (op : DeviceRegistry.Op)
    (h : ∀ u ∈ users, TwoFactorFlagInv u) :
    ∀ u ∈ DeviceRegistry.applyOp users op, TwoFactorFlagInv u := by
  cases op with
  | beginReg userId deviceName publicKey regCode devUuid now =>
    simp only [DeviceRegistry.applyOp, DevicesRoute.POST]
    by_cases hg : userId = "" ∨ deviceName = "" ∨ publicKey = ""
    · rw [if_pos hg]; exact h
    · rw [if_neg hg]
      cases hfind : users.find? (fun u => u.id = userId) with
      | none => exact h
      | some user =>
        intro u hu
        rcases mem_updateOne hu with hmem | ⟨x, _, rfl⟩
        · exact h u hmem
        · show true = _
          cases x.devices <;> rfl
  | completeReg registrationCode deviceName publicKey now =>
    simp only [DeviceRegistry.applyOp, DevicesVerify.POST]
    by_cases hg : registrationCode = "" ∨ deviceName = "" ∨ publicKey = ""
    · rw [if_pos hg]; exact h
    · rw [if_neg hg]
      cases hfind : users.find? (fun u => u.devices.any
          (fun d => d.registrationCode = some registrationCode ∧ d.isVerified = false)) with
      | none => exact h
      | some user =>
        dsimp only
        cases hdev : user.devices.find?
            (fun d => d.registrationCode = some registrationCode) with
        | none => exact h
        | some device =>
          intro u hu
          rcases mem_updateOne hu with hmem | ⟨x, hx, rfl⟩
          · exact h u hmem
          · have hinv := h x hx
            show x.twoFactorEnabled = _
            rw [updateOne_isEmpty]
            exact hinv
  | removeDevice userId deviceId now =>
    by_cases hg : userId = "" ∨ deviceId = ""
    · simp only [DeviceRegistry.applyOp, DevicesRoute.DELETE, if_pos hg]
      exact h
    · cases hfind : users.find? (fun u => u.id = userId) with
      | none =>
        simp only [DeviceRegistry.applyOp, DevicesRoute.DELETE, if_neg hg, hfind]
        exact h
      | some user =>
        simp only [DeviceRegistry.applyOp]
        rw [DELETE_spec users userId deviceId now (not_or.mp hg).1 (not_or.mp hg).2 hfind]
        intro u hu
        rcases mem_updateOne hu with hmem | ⟨x, hx, rfl⟩
        · exact h u hmem
        · have hinv := h x hx
          unfold TwoFactorFlagInv at hinv ⊢
          dsimp only
          by_cases hrem : (x.devices.filter (fun d => decide (¬ d.id = deviceId))).isEmpty = true
          · rw [if_pos hrem, hrem]; rfl
          · rw [if_neg hrem]
            have hrem' : (x.devices.filter (fun d => decide (¬ d.id = deviceId))).isEmpty = false := by
              cases hc : (x.devices.filter (fun d => decide (¬ d.id = deviceId))).isEmpty
              · rfl
              · exact absurd hc hrem
            rw [hrem']
            have hxne : x.devices.isEmpty = false := by
              cases hdevs : x.devices with
              | nil => rw [hdevs] at hrem'; simp [List.filter] at hrem'
              | cons a as => rfl
            rw [hinv, hxne]

/-- Every sequence of Device Registry operations preserves the
flag-tracks-devices invariant on every account of the store. -/
theorem twoFactorFlagInv_run (ops : List DeviceRegistry.Op) (users : List User)
    (h : ∀ u ∈ users, TwoFactorFlagInv u) :
    ∀ u ∈ DeviceRegistry.run users ops, TwoFactorFlagInv u := by
  induction ops generalizing users with
  | nil => exact h
  | cons op ops ih => exact ih _ (twoFactorFlagInv_applyOp users op h)

/-- An approval attempt on a challenge whose stored status already left
pending fails and writes nothing. -/
theorem PUT_nonpending_spec (challenges : List Challenge)
    (challengeId response deviceId userId : String) (now : Nat) {ch : Challenge}
    (hch : challenges.find? (fun c => c.id = challengeId) = some ch)
    (hst : ¬ ch.status = Status.pending) :
    ChallengesRoute.PUT challenges challengeId response deviceId userId now =
      ({ success := false, error := some "Challenge is no longer valid" }, challenges) := by
  simp only [ChallengesRoute.PUT, hch]
  rw [if_pos hst]

/-- An approval attempt on a pending challenge whose deadline has passed
fails and persists the expired status. -/
theorem PUT_expired_spec (challenges : List Challenge)
    (challengeId response deviceId userId : String) (now : Nat) {ch : Challenge}
    (hch : challenges.find? (fun c => c.id = challengeId) = some ch)
    (hst : ch.status = Status.pending) (hexp : now > ch.expiresAt) :
    ChallengesRoute.PUT challenges challengeId response deviceId userId now =
      ({ success := false, error := some "Challenge has expired" },
       updateOne (fun c => c.id = ch.id)
         (fun c => { c with status := .expired }) challenges) := by
  simp only [ChallengesRoute.PUT, hch]
  rw [if_neg (by simp [hst]), if_pos hexp]

/-- The status poll returns the stored status and expiry verbatim and
leaves the challenges collection untouched. -/
theorem GET_spec (challenges : List Challenge) (challengeId : String) {ch : Challenge}
    (hcid : ¬ challengeId = "")
    (hch : challenges.find? (fun c => c.id = challengeId) = some ch) :
    ChallengesRoute.GET challenges challengeId =
      ({ success := true, status := some ch.status, expiresAt := some ch.expiresAt },
       challenges) := by
  simp only [ChallengesRoute.GET, hcid, if_false, hch]

/-- Successful completion of an approved, unexpired login challenge:
the challenge goes to completed, and the user record is rewritten with
fresh timestamps, twoFactorEnabled forced to true and
deviceRegistrationRequired forced to false. -/
theorem CompleteAuth_POST_spec (users : List User) (challenges : List Challenge)
    (challengeId : String) (vc : Option String) (now : Nat)
    {ch : Challenge} {user : User}
    (hcid : ¬ challengeId = "")
    (hch : challenges.find? (fun c => c.id = challengeId) = some ch)
    (hexp : ¬ now > ch.expiresAt)
    (hreset : ch.isPasswordReset = false)
    (happr : ch.status = Status.approved)
    (huser : users.find? (fun u => u.id = ch.userId) = some user) :
    CompleteAuth.POST users challenges challengeId vc now =
      ({ success := true,
         user := some { user with masterPassword := none, twoFactorEnabled := true, deviceRegistrationRequired := false } },
       updateOne (fun u => u.id = user.id)
         (fun u => { u with lastLoginAt := now, updatedAt := now,
                            twoFactorEnabled := true,
                            deviceRegistrationRequired := false }) users,
       updateOne (fun c => c.id = ch.id)
         (fun c => { c with status := .completed, completedAt := some now })
         challenges) := by
  simp only [CompleteAuth.POST, hcid, if_false, hch, huser]
  rw [if_neg hexp]
  simp only [hreset, happr]
  simp

/-- The challenge-gated password reset consumes a bound password-reset
challenge purely on a verification-code match: the stored status is not
consulted, the challenge is rewritten to used, and the password hash is
rewritten from the submitted password and stored salt. -/
theorem ResetV2_POST_spec (hash : String → String → String) (users : List User)
    (challenges : List Challenge) (username email newPassword cid vc : String)
    (now : Nat) {user : User} {ch : Challenge}
    (hu : ¬ username = "") (he : ¬ email = "") (hp : ¬ newPassword = "")
    (huser : users.find? (fun u => u.username = username ∧ u.email = email) = some user)
    (h2fa : user.twoFactorEnabled = true)
    (hch : challenges.find? (fun c => c.id = cid ∧ c.userId = user.id ∧
        c.isPasswordReset = true) = some ch)
    (hvc : ¬ vc = "approved") (hcode : ch.verificationCode = some vc)
    (hexp : ¬ now > ch.expiresAt) :
    ResetPasswordV2.POST hash users challenges username email newPassword
        (some cid) (some vc) now =
      ({ success := true },
       updateOne (fun u => u.id = user.id)
         (fun u => { u with
            passwordHash := some (hash newPassword (user.passwordSalt.getD "")),
            lastPasswordChangeAt := some now, updatedAt := now }) users,
       updateOne (fun c => c.id = cid)
         (fun c => { c with status := .used }) challenges) := by
  simp only [ResetPasswordV2.POST, hu, he, hp, or_self, if_false, huser, h2fa, hch]
  rw [if_pos (by simp)]
  rw [if_neg (by simp [hvc])]
  rw [if_neg (by simp [hvc, hcode])]
  rw [if_neg hexp]

/-- A login for an unknown username fails with the User not found text. -/
theorem login_unknown_user_spec (users : List User) (challenges : List Challenge)
    (username password vc cid : String) (now : Nat)
    (h : users.find? (fun u => u.username = username) = none) :
    LoginRoute.POST users challenges username password vc cid now =
      ({ success := false, error := some "User not found" }, challenges) := by
  simp only [LoginRoute.POST, h]

/-- A login with a wrong secret fails with the Invalid password text. -/
theorem login_wrong_password_spec (users : List User) (challenges : List Challenge)
    (username password vc cid : String) (now : Nat) {user : User}
    (h : users.find? (fun u => u.username = username) = some user)
    (hpw : ¬ user.masterPassword = some password) :
    LoginRoute.POST users challenges username password vc cid now =
      ({ success := false, error := some "Invalid password" }, challenges) := by
  simp only [LoginRoute.POST, h]
  rw [if_pos hpw]

/-- The hash-comparing login variant: unknown username. -/
theorem loginV2_unknown_user_spec (hash : String → String → String)
    (users : List User) (challenges : List Challenge)
    (username password vc cid : String) (now : Nat)
    (h : users.find? (fun u => u.username = username) = none) :
    LoginRoute.POSTv2 hash users challenges username password vc cid now =
      ({ success := false, error := some "User not found" }, challenges) := by
  simp only [LoginRoute.POSTv2, h]

/-- The hash-comparing login variant: stored hash mismatch. -/
theorem loginV2_wrong_password_spec (hash : String → String → String)
    (users : List User) (challenges : List Challenge)
    (username password vc cid : String) (now : Nat) {user : User}
    (h : users.find? (fun u => u.username = username) = some user)
    (hpw : ¬ hash password (user.passwordSalt.getD "") = user.passwordHash.getD "") :
    LoginRoute.POSTv2 hash users challenges username password vc cid now =
      ({ success := false, error := some "Invalid password" }, challenges) := by
  simp only [LoginRoute.POSTv2, h]
  rw [if_pos hpw]

/-- Successful begin-registration pushes the fresh unverified device and
turns the 2FA flag on unconditionally. -/
theorem DevicesPOST_spec (users : List User)
    (userId deviceName publicKey regCode devUuid : String) (now : Nat) {user : User}
    (hu : ¬ userId = "") (hn : ¬ deviceName = "") (hk : ¬ publicKey = "")
    (hfind : users.find? (fun u => u.id = userId) = some user) :
    DevicesRoute.POST users userId deviceName publicKey regCode devUuid now =
      ({ success := true,
         device := some { id := devUuid, name := deviceName, publicKey := publicKey, lastUsed := now, createdAt := now, isVerified := false, registrationCode := some regCode },
         registrationCode := some regCode },
       updateOne (fun u => u.id = userId)
         (fun u => { u with
            devices := u.devices ++ [{ id := devUuid, name := deviceName, publicKey := publicKey, lastUsed := now, createdAt := now, isVerified := false, registrationCode := some regCode }],
            twoFactorEnabled := true, updatedAt := now }) users) := by
  simp only [DevicesRoute.POST, hu, hn, hk, or_self, if_false, hfind]

/-- Successful device verification rewrites the first code-matching
device of the matched user in place. -/
theorem DevicesVerifyPOST_spec (users : List User)
    (registrationCode deviceName publicKey : String) (now : Nat) (uid : String)
    {user : User} {device : Device}
    (hc : ¬ registrationCode = "") (hn : ¬ deviceName = "") (hk : ¬ publicKey = "")
    (hfind : users.find? (fun u => u.devices.any
        (fun d => d.registrationCode = some registrationCode ∧ d.isVerified = false)) = some user)
    (hdev : user.devices.find? (fun d => d.registrationCode = some registrationCode) = some device)
    (huid : user.id = uid) :
    DevicesVerify.POST users registrationCode deviceName publicKey now =
      ({ success := true, deviceId := some device.id },
       updateOne
         (fun u => u.id = uid ∧ u.devices.any
           (fun d => d.registrationCode = some registrationCode))
         (fun u => { u with devices := updateOne (fun d => d.registrationCode = some registrationCode) (fun d => { d with isVerified := true, name := deviceName, publicKey := publicKey, lastUsed := now, registrationCode := none }) u.devices }) users) := by
  subst huid
  simp only [DevicesVerify.POST, hc, hn, hk, or_self, if_false, hfind, hdev]

/-- C1, counterexample: beginning a device registration on a fresh
account (no devices, 2FA off) leaves the store with the 2FA flag set to
true although the account's only device is unverified — so the claimed
invariant, that a 2FA-enabled account owns at least one verified device,
fails on a state reachable by one Device Registry operation. -/
theorem C1_counterexample :
    ¬ ∀ u ∈ (DevicesRoute.POST [Examples.freshUser] "u1" "phone" "pkA" "123456" "d1" 0).2,
        VerifiedDeviceInv u := by decide

/-- C1, amended: the invariant the Device Registry operations
(beginRegistration, completeRegistration, removeDevice) actually
preserve is that the 2FA flag equals nonemptiness of the device list,
verified or not: beginRegistration turns the flag on together with its
unverified device, and removeDevice clears the flag exactly when no
device at all remains. -/
theorem C1_theorem (ops : List DeviceRegistry.Op) (users : List User)
    (h : ∀ u ∈ users, TwoFactorFlagInv u) :
    ∀ u ∈ DeviceRegistry.run users ops, TwoFactorFlagInv u :=
  twoFactorFlagInv_run ops users h

/-- C1, witness: the amended invariant holds along a concrete sequence
touching all three registry operations on a fresh account. -/
theorem C1_witness :
    (∀ u ∈ [Examples.freshUser], TwoFactorFlagInv u) ∧
    (∀ u ∈ DeviceRegistry.run [Examples.freshUser] Examples.demoOps, TwoFactorFlagInv u) :=
  ⟨by decide, C1_theorem Examples.demoOps [Examples.freshUser] (by decide)⟩

/-- C2: the challenge-approval handler of the challenges-collection
route marks a pending, unexpired challenge whose device and account
bindings match approved even though the supplied proof is an arbitrary
string that verifies against nothing — contradicting the requirement
that the status become approved if and only if the proof is valid. -/
theorem C2_theorem :
    (ChallengesRoute.PUT [Examples.pendingChallenge] "c1" "not-a-valid-signature" "d1" "u1" 0).1.success = true ∧
    (ChallengesRoute.PUT [Examples.pendingChallenge] "c1" "not-a-valid-signature" "d1" "u1" 0).2 =
      [{ Examples.pendingChallenge with status := .approved }] := by decide

/-- C3: success responses leak secret material.  The login route
serializes the raw user document, master password included; the
reset-password route re-inserts the new master password into the
response object; and the complete-authentication route drops only
masterPassword, leaving the stored password hash in its response. -/
theorem C3_theorem :
    (LoginRoute.POST [Examples.bobUser] [] "bob" "hunter2" "123456" "c9" 0).1.success = true ∧
    ((LoginRoute.POST [Examples.bobUser] [] "bob" "hunter2" "123456" "c9" 0).1.user.map
      (fun u => u.masterPassword)) = some (some "hunter2") ∧
    (ResetPasswordRoute.POST [Examples.carolUser] "carol" "carol@x.com" "blue" "newpw" 7).1.success = true ∧
    ((ResetPasswordRoute.POST [Examples.carolUser] "carol" "carol@x.com" "blue" "newpw" 7).1.user.map
      (fun u => u.masterPassword)) = some (some "newpw") ∧
    (CompleteAuth.POST [Examples.daveUser] [Examples.approvedChallenge] "c2" none 0).1.success = true ∧
    ((CompleteAuth.POST [Examples.daveUser] [Examples.approvedChallenge] "c2" none 0).1.user.map
      (fun u => u.passwordHash)) = some (some "deadbeef") := by decide

/-- C4, counterexample: a challenge whose status already left pending
(it is approved) is still mutated by the complete-authentication
operation, which succeeds and overwrites the stored status with
completed — the claim says every further status mutation must fail and
leave the stored status unchanged. -/
theorem C4_counterexample :
    ¬ Examples.approvedChallenge.status = Status.pending ∧
    (CompleteAuth.POST [Examples.daveUser] [Examples.approvedChallenge] "c2" none 0).1.success = true ∧
    (CompleteAuth.POST [Examples.daveUser] [Examples.approvedChallenge] "c2" none 0).2.2 =
      [{ Examples.approvedChallenge with status := .completed, completedAt := some 0 }] := by
  decide

/-- C4, amended: only the approval operation refuses non-pending
challenges; the complete-authentication operation requires an approved
login challenge and moves it approved to completed (a second transition
out of a non-pending status), and the challenge-gated password reset
consumes an unexpired bound reset challenge on a plain code match
without consulting the stored status at all, rewriting it to used. -/
theorem C4_theorem :
    (∀ (challenges : List Challenge) (challengeId response deviceId userId : String)
        (now : Nat) (ch : Challenge),
        challenges.find? (fun c => c.id = challengeId) = some ch →
        ¬ ch.status = Status.pending →
        ChallengesRoute.PUT challenges challengeId response deviceId userId now =
          ({ success := false, error := some "Challenge is no longer valid" }, challenges)) ∧
    (∀ (users : List User) (challenges : List Challenge) (challengeId : String)
        (vc : Option String) (now : Nat) (ch : Challenge) (user : User),
        ¬ challengeId = "" →
        challenges.find? (fun c => c.id = challengeId) = some ch →
        ¬ now > ch.expiresAt → ch.isPasswordReset = false →
        ch.status = Status.approved →
        users.find? (fun u => u.id = ch.userId) = some user →
        (CompleteAuth.POST users challenges challengeId vc now).1.success = true ∧
        ((CompleteAuth.POST users challenges challengeId vc now).2.2).find?
            (fun c => c.id = challengeId) =
          some { ch with status := .completed, completedAt := some now }) ∧
    (∀ (hash : String → String → String) (users : List User)
        (challenges : List Challenge) (username email newPassword cid vc : String)
        (now : Nat) (user : User) (ch : Challenge),
        ¬ username = "" → ¬ email = "" → ¬ newPassword = "" →
        users.find? (fun u => u.username = username ∧ u.email = email) = some user →
        user.twoFactorEnabled = true →
        challenges.find? (fun c => c.id = cid ∧ c.userId = user.id ∧
            c.isPasswordReset = true) = some ch →
        challenges.find? (fun c => c.id = cid) = some ch →
        ¬ vc = "approved" → ch.verificationCode = some vc →
        ¬ now > ch.expiresAt →
        (ResetPasswordV2.POST hash users challenges username email newPassword
            (some cid) (some vc) now).1.success = true ∧
        ((ResetPasswordV2.POST hash users challenges username email newPassword
            (some cid) (some vc) now).2.2).find? (fun c => c.id = cid) =
          some { ch with status := .used }) := by
  refine ⟨?_, ?_, ?_⟩
  · intro challenges challengeId response deviceId userId now ch hch hst
    exact PUT_nonpending_spec challenges challengeId response deviceId userId now hch hst
  · intro users challenges challengeId vc now ch user hcid hch hexp hreset happr huser
    rw [CompleteAuth_POST_spec users challenges challengeId vc now hcid hch hexp hreset
      happr huser]
    refine ⟨rfl, ?_⟩
    have hid : ch.id = challengeId := by simpa using List.find?_some hch
    subst hid
    obtain ⟨l₁, l₂, hl, hl₁, hx⟩ := find?_split _ hch
    subst hl
    rw [updateOne_append_left _ _ l₂ hl₁ hx]
    exact find?_append_left _ l₂ hl₁ (by simp)
  · intro hash users challenges username email newPassword cid vc now user ch
      hu he hp huser h2fa hch hfid hvc hcode hexp
    rw [ResetV2_POST_spec hash users challenges username email newPassword cid vc now
      hu he hp huser h2fa hch hvc hcode hexp]
    refine ⟨rfl, ?_⟩
    have hid : ch.id = cid := by simpa using (List.find?_some hfid)
    subst hid
    obtain ⟨l₁, l₂, hl, hl₁, hx⟩ := find?_split _ hfid
    subst hl
    rw [updateOne_append_left _ _ l₂ hl₁ hx]
    exact find?_append_left _ l₂ hl₁ (by simp)

/-- C4, witness: the three amended behaviors at concrete stores — a
rejected approval attempt on an approved challenge, a completed
transition out of approved, and a used transition out of rejected. -/
theorem C4_witness :
    (ChallengesRoute.PUT [Examples.approvedChallenge] "c2" "resp" "d1" "u4" 0 =
      ({ success := false, error := some "Challenge is no longer valid" },
       [Examples.approvedChallenge])) ∧
    ((CompleteAuth.POST [Examples.daveUser] [Examples.approvedChallenge] "c2" none 0).1.success = true ∧
     ((CompleteAuth.POST [Examples.daveUser] [Examples.approvedChallenge] "c2" none 0).2.2).find?
         (fun c => c.id = "c2") =
       some { Examples.approvedChallenge with status := .completed, completedAt := some 0 }) ∧
    ((ResetPasswordV2.POST (fun p s => String.append p s) [Examples.daveUser]
        [Examples.rejectedResetChallenge] "dave" "dave@x.com" "npw"
        (some "c3") (some "333333") 0).1.success = true ∧
     ((ResetPasswordV2.POST (fun p s => String.append p s) [Examples.daveUser]
        [Examples.rejectedResetChallenge] "dave" "dave@x.com" "npw"
        (some "c3") (some "333333") 0).2.2).find? (fun c => c.id = "c3") =
       some { Examples.rejectedResetChallenge with status := .used }) :=
  ⟨C4_theorem.1 [Examples.approvedChallenge] "c2" "resp" "d1" "u4" 0
     Examples.approvedChallenge (by decide) (by decide),
   C4_theorem.2.1 [Examples.daveUser] [Examples.approvedChallenge] "c2" none 0
     Examples.approvedChallenge Examples.daveUser (by decide) (by decide) (by decide)
     (by decide) (by decide) (by decide),
   C4_theorem.2.2 (fun p s => String.append p s) [Examples.daveUser]
     [Examples.rejectedResetChallenge] "dave" "dave@x.com" "npw" "c3" "333333" 0
     Examples.daveUser Examples.rejectedResetChallenge (by decide) (by decide) (by decide)
     (by decide) (by decide) (by decide) (by decide) (by decide) (by decide) (by decide)⟩

/-- C5, counterexample: the login failure for an unknown username reads
User not found while the failure for a wrong secret on an existing
account reads Invalid password — two distinct user-facing texts, so the
two causes are distinguishable from the response. -/
theorem C5_counterexample :
    (LoginRoute.POST [Examples.bobUser] [] "alice" "pw" "123456" "c9" 0).1.error =
      some "User not found" ∧
    (LoginRoute.POST [Examples.bobUser] [] "bob" "wrong" "123456" "c9" 0).1.error =
      some "Invalid password" ∧
    ¬ ("User not found" : String) = "Invalid password" := by decide

/-- C5, amended: in both login variants the two failure causes carry
fixed but distinct texts — User not found when no account matches the
username, Invalid password when the secret check fails — so a caller can
enumerate usernames from the response. -/
theorem C5_theorem :
    (∀ (users : List User) (challenges : List Challenge)
        (username password vc cid : String) (now : Nat),
        users.find? (fun u => u.username = username) = none →
        LoginRoute.POST users challenges username password vc cid now =
          ({ success := false, error := some "User not found" }, challenges)) ∧
    (∀ (users : List User) (challenges : List Challenge)
        (username password vc cid : String) (now : Nat) (user : User),
        users.find? (fun u => u.username = username) = some user →
        ¬ user.masterPassword = some password →
        LoginRoute.POST users challenges username password vc cid now =
          ({ success := false, error := some "Invalid password" }, challenges)) ∧
    (∀ (hash : String → String → String) (users : List User)
        (challenges : List Challenge) (username password vc cid : String) (now : Nat),
        users.find? (fun u => u.username = username) = none →
        LoginRoute.POSTv2 hash users challenges username password vc cid now =
          ({ success := false, error := some "User not found" }, challenges)) ∧
    (∀ (hash : String → String → String) (users : List User)
        (challenges : List Challenge) (username password vc cid : String)
        (now : Nat) (user : User),
        users.find? (fun u => u.username = username) = some user →
        ¬ hash password (user.passwordSalt.getD "") = user.passwordHash.getD "" →
        LoginRoute.POSTv2 hash users challenges username password vc cid now =
          ({ success := false, error := some "Invalid password" }, challenges)) ∧
    ¬ ("User not found" : String) = "Invalid password" := by
  refine ⟨?_, ?_, ?_, ?_, by decide⟩
  · intro users challenges username password vc cid now h
    exact login_unknown_user_spec users challenges username password vc cid now h
  · intro users challenges username password vc cid now user h hpw
    exact login_wrong_password_spec users challenges username password vc cid now h hpw
  · intro hash users challenges username password vc cid now h
    exact loginV2_unknown_user_spec hash users challenges username password vc cid now h
  · intro hash users challenges username password vc cid now user h hpw
    exact loginV2_wrong_password_spec hash users challenges username password vc cid now h hpw

/-- C5, witness: both failure texts observed on a concrete store, for
both login variants. -/
theorem C5_witness :
    (LoginRoute.POST [Examples.bobUser] [] "alice" "pw" "123456" "c9" 0 =
      ({ success := false, error := some "User not found" }, [])) ∧
    (LoginRoute.POST [Examples.bobUser] [] "bob" "wrong" "123456" "c9" 0 =
      ({ success := false, error := some "Invalid password" }, [])) ∧
    (LoginRoute.POSTv2 (fun p s => String.append p s) [Examples.daveUser] []
        "mallory" "pw" "123456" "c9" 0 =
      ({ success := false, error := some "User not found" }, [])) ∧
    (LoginRoute.POSTv2 (fun p s => String.append p s) [Examples.daveUser] []
        "dave" "wrong" "123456" "c9" 0 =
      ({ success := false, error := some "Invalid password" }, [])) :=
  ⟨C5_theorem.1 [Examples.bobUser] [] "alice" "pw" "123456" "c9" 0 (by decide),
   C5_theorem.2.1 [Examples.bobUser] [] "bob" "wrong" "123456" "c9" 0
     Examples.bobUser (by decide) (by decide),
   C5_theorem.2.2.1 (fun p s => String.append p s) [Examples.daveUser] []
     "mallory" "pw" "123456" "c9" 0 (by decide),
   C5_theorem.2.2.2.1 (fun p s => String.append p s) [Examples.daveUser] []
     "dave" "wrong" "123456" "c9" 0 Examples.daveUser (by decide) (by decide)⟩

/-- C6, counterexample: a pending challenge whose deadline (100 ms) is
long past is read by the status poll, which still reports pending — not
expired — and writes nothing back to the store. -/
theorem C6_counterexample :
    Examples.stalePendingChallenge.status = Status.pending ∧
    200 > Examples.stalePendingChallenge.expiresAt ∧
    (ChallengesRoute.GET [Examples.stalePendingChallenge] "c4").1.status =
      some Status.pending ∧
    ¬ (ChallengesRoute.GET [Examples.stalePendingChallenge] "c4").1.status =
      some Status.expired ∧
    (ChallengesRoute.GET [Examples.stalePendingChallenge] "c4").2 =
      [Examples.stalePendingChallenge] := by decide

/-- C6, amended: the status poll returns whatever status is stored,
without applying or persisting time-based expiry (terminal statuses are
therefore returned as stored); the pending-to-expired transition is
applied and persisted only when an approval attempt reaches an expired
pending challenge. -/
theorem C6_theorem :
    (∀ (challenges : List Challenge) (challengeId : String) (ch : Challenge),
        ¬ challengeId = "" →
        challenges.find? (fun c => c.id = challengeId) = some ch →
        ChallengesRoute.GET challenges challengeId =
          ({ success := true, status := some ch.status, expiresAt := some ch.expiresAt },
           challenges)) ∧
    (∀ (challenges : List Challenge) (challengeId response deviceId userId : String)
        (now : Nat) (ch : Challenge),
        challenges.find? (fun c => c.id = challengeId) = some ch →
        ch.status = Status.pending → now > ch.expiresAt →
        ChallengesRoute.PUT challenges challengeId response deviceId userId now =
          ({ success := false, error := some "Challenge has expired" },
           updateOne (fun c => c.id = ch.id)
             (fun c => { c with status := .expired }) challenges)) := by
  refine ⟨?_, ?_⟩
  · intro challenges challengeId ch hcid hch
    exact GET_spec challenges challengeId hcid hch
  · intro challenges challengeId response deviceId userId now ch hch hst hexp
    exact PUT_expired_spec challenges challengeId response deviceId userId now hch hst hexp

/-- C6, witness: the poll on the stale pending challenge reports the
stored pending status and changes nothing, while an approval attempt at
the same instant persists the expired status. -/
theorem C6_witness :
    (ChallengesRoute.GET [Examples.stalePendingChallenge] "c4" =
      ({ success := true, status := some Examples.stalePendingChallenge.status,
         expiresAt := some Examples.stalePendingChallenge.expiresAt },
       [Examples.stalePendingChallenge])) ∧
    (ChallengesRoute.PUT [Examples.stalePendingChallenge] "c4" "resp" "d1" "u1" 200 =
      ({ success := false, error := some "Challenge has expired" },
       updateOne (fun c => c.id = Examples.stalePendingChallenge.id)
         (fun c => { c with status := .expired }) [Examples.stalePendingChallenge])) :=
  ⟨C6_theorem.1 [Examples.stalePendingChallenge] "c4" Examples.stalePendingChallenge
     (by decide) (by decide),
   C6_theorem.2 [Examples.stalePendingChallenge] "c4" "resp" "d1" "u1" 200
     Examples.stalePendingChallenge (by decide) (by decide) (by decide)⟩

/-- C7, counterexample: removing the only verified device of an account
that still owns an unverified device leaves twoFactorEnabled true with
zero verified devices remaining — the claim says the flag is cleared
exactly when no verified device remains. -/
theorem C7_counterexample :
    (DevicesRoute.DELETE [Examples.mixedUser] "u1" "d1" 5).1.success = true ∧
    (DevicesRoute.DELETE [Examples.mixedUser] "u1" "d1" 5).2 =
      [{ Examples.mixedUser with devices := [Examples.pendingDev], updatedAt := 5 }] ∧
    Examples.mixedUser.twoFactorEnabled = true ∧
    (Examples.pendingDev.isVerified = false) := by decide

/-- C7, amended: removeDevice fails only when the account id resolves to
no user (there is no DeviceNotFound failure — deleting an absent device
id succeeds as a no-op), and the 2FA flag is cleared exactly when zero
devices of any verification state remain after the deletion. -/
theorem C7_theorem :
    (∀ (users : List User) (userId deviceId : String) (now : Nat),
        ¬ userId = "" → ¬ deviceId = "" →
        users.find? (fun u => u.id = userId) = none →
        DevicesRoute.DELETE users userId deviceId now =
          ({ success := false, error := some "User not found" }, users)) ∧
    (∀ (users : List User) (userId deviceId : String) (now : Nat) (user : User),
        ¬ userId = "" → ¬ deviceId = "" →
        users.find? (fun u => u.id = userId) = some user →
        (DevicesRoute.DELETE users userId deviceId now).1 = { success := true } ∧
        ((DevicesRoute.DELETE users userId deviceId now).2).find?
            (fun u => u.id = userId) =
          some { user with
                 devices := user.devices.filter (fun d => ¬ d.id = deviceId),
                 updatedAt := now,
                 twoFactorEnabled :=
                   if (user.devices.filter (fun d => ¬ d.id = deviceId)).isEmpty
                   then false else user.twoFactorEnabled }) := by
  refine ⟨?_, ?_⟩
  · intro users userId deviceId now hu hd h
    simp only [DevicesRoute.DELETE, hu, hd, or_self, if_false, h]
  · intro users userId deviceId now user hu hd h
    rw [DELETE_spec users userId deviceId now hu hd h]
    refine ⟨rfl, ?_⟩
    obtain ⟨l₁, l₂, hl, hl₁, hx⟩ := find?_split _ h
    subst hl
    rw [updateOne_append_left _ _ l₂ hl₁ hx]
    exact find?_append_left _ l₂ hl₁ hx

/-- C7, witness: both amended branches at concrete stores — an unknown
account id fails with User not found, and deleting a device that is not
the last one leaves the 2FA flag untouched. -/
theorem C7_witness :
    (DevicesRoute.DELETE [Examples.mixedUser] "nobody" "d1" 5 =
      ({ success := false, error := some "User not found" }, [Examples.mixedUser])) ∧
    ((DevicesRoute.DELETE [Examples.mixedUser] "u1" "d1" 5).1 = { success := true } ∧
     ((DevicesRoute.DELETE [Examples.mixedUser] "u1" "d1" 5).2).find?
         (fun u => u.id = "u1") =
       some { Examples.mixedUser with
              devices := Examples.mixedUser.devices.filter (fun d => ¬ d.id = "d1"),
              updatedAt := 5,
              twoFactorEnabled :=
                if (Examples.mixedUser.devices.filter (fun d => ¬ d.id = "d1")).isEmpty
                then false else Examples.mixedUser.twoFactorEnabled }) :=
  ⟨C7_theorem.1 [Examples.mixedUser] "nobody" "d1" 5 (by decide) (by decide) (by decide),
   C7_theorem.2 [Examples.mixedUser] "u1" "d1" 5 Examples.mixedUser
     (by decide) (by decide) (by decide)⟩

set_option maxRecDepth 8192 in
/-- C8: generateVerificationCode draws a single random byte, so it can
only ever return the 256 strings 100000 through 100255, all of length
six; in particular 123456 — a value the claim says must be attainable,
the contract being a uniform draw over 100000 to 999999 — is returned on
no random input. -/
theorem C8_theorem :
    (∀ byte : Fin 256, ¬ ServerCrypto.generateVerificationCode byte = "123456") ∧
    (∀ byte : Fin 256, (ServerCrypto.generateVerificationCode byte).length = 6) ∧
    ServerCrypto.generateVerificationCode 0 = "100000" ∧
    ServerCrypto.generateVerificationCode 255 = "100255" := by decide

/-- C9, counterexample: when the freshly generated registration code
collides with the code of a pre-existing pending device, completing the
registration verifies that earlier device instead of the one the
beginRegistration call created — the returned device id is the old one
and the new device stays unverified with its code uncleared. -/
theorem C9_counterexample :
    (DevicesVerify.POST
      (DevicesRoute.POST [Examples.collideUser] "u1" "new" "pkN" "111111" "d9" 8).2
      "111111" "new" "pkN" 9).1.success = true ∧
    (DevicesVerify.POST
      (DevicesRoute.POST [Examples.collideUser] "u1" "new" "pkN" "111111" "d9" 8).2
      "111111" "new" "pkN" 9).1.deviceId = some "d2" ∧
    ¬ (DevicesVerify.POST
      (DevicesRoute.POST [Examples.collideUser] "u1" "new" "pkN" "111111" "d9" 8).2
      "111111" "new" "pkN" 9).1.deviceId = some "d9" ∧
    ((DevicesVerify.POST
      (DevicesRoute.POST [Examples.collideUser] "u1" "new" "pkN" "111111" "d9" 8).2
      "111111" "new" "pkN" 9).2.all
      (fun u => u.devices.all
        (fun d => d.id = "d9" → (d.isVerified = false ∧ d.registrationCode = some "111111")))) = true := by
  decide

/-- C9, amended: when the registration code issued by beginRegistration
does not collide with the code of any device already in the store, and
the generated device id is fresh for the account, beginRegistration
followed immediately by completeRegistration with that exact code
succeeds and leaves the new device verified, renamed and re-keyed from
the completion call, with its registration code cleared. -/
theorem C9_theorem (users : List User)
    (userId deviceName publicKey regCode devUuid deviceName2 publicKey2 : String)
    (now now2 : Nat) (user : User)
    (hu : ¬ userId = "") (hn : ¬ deviceName = "") (hk : ¬ publicKey = "")
    (hc : ¬ regCode = "") (hn2 : ¬ deviceName2 = "") (hk2 : ¬ publicKey2 = "")
    (hfind : users.find? (fun u => u.id = userId) = some user)
    (hfresh : ∀ u ∈ users, ∀ d ∈ u.devices, ¬ d.registrationCode = some regCode)
    (huuid : ∀ d ∈ user.devices, ¬ d.id = devUuid) :
    (DevicesRoute.POST users userId deviceName publicKey regCode devUuid now).1.success = true ∧
    (DevicesVerify.POST (DevicesRoute.POST users userId deviceName publicKey regCode devUuid now).2 regCode deviceName2 publicKey2 now2).1.success = true ∧
    (DevicesVerify.POST (DevicesRoute.POST users userId deviceName publicKey regCode devUuid now).2 regCode deviceName2 publicKey2 now2).1.deviceId = some devUuid ∧
    ∃ u', ((DevicesVerify.POST (DevicesRoute.POST users userId deviceName publicKey regCode devUuid now).2 regCode deviceName2 publicKey2 now2).2).find? (fun u => u.id = userId) = some u' ∧
      u'.devices.find? (fun d => d.id = devUuid) =
        some { id := devUuid, name := deviceName2, publicKey := publicKey2, lastUsed := now2, createdAt := now, isVerified := true, registrationCode := none } := by
  obtain ⟨l₁, l₂, hl, hl₁, hx⟩ := find?_split _ hfind
  rw [DevicesPOST_spec users userId deviceName publicKey regCode devUuid now hu hn hk hfind]
  rw [hl] at hfresh ⊢
  have huserMem : user ∈ l₁ ++ user :: l₂ :=
    List.mem_append_right _ (List.mem_cons_self _ _)
  rw [updateOne_append_left _ _ l₂ hl₁ hx]
  dsimp only
  refine ⟨rfl, ?_⟩
  have hl₁q : ∀ y ∈ l₁, (fun (u : User) => u.devices.any
      (fun d => d.registrationCode = some regCode ∧ d.isVerified = false)) y = false := by
    intro y hy
    simp only [List.any_eq_false]
    intro d hd
    simp [hfresh y (List.mem_append_left _ hy) d hd]
  have hfind2 := find?_append_left
    (fun (u : User) => u.devices.any
      (fun d => d.registrationCode = some regCode ∧ d.isVerified = false))
    l₂ hl₁q (z := { user with
      devices := user.devices ++ [{ id := devUuid, name := deviceName, publicKey := publicKey, lastUsed := now, createdAt := now, isVerified := false, registrationCode := some regCode }],
      twoFactorEnabled := true, updatedAt := now }) (by simp [List.any_append])
  have hdevfresh : ∀ d ∈ user.devices,
      decide (d.registrationCode = some regCode) = false := by
    intro d hd
    simp [hfresh user huserMem d hd]
  have hdev2 := find?_append_left
    (fun (d : Device) => d.registrationCode = some regCode) ([] : List Device) hdevfresh
    (z := { id := devUuid, name := deviceName, publicKey := publicKey, lastUsed := now, createdAt := now, isVerified := false, registrationCode := some regCode })
    (by simp)
  rw [DevicesVerifyPOST_spec _ regCode deviceName2 publicKey2 now2 user.id hc hn2 hk2
    hfind2 hdev2 rfl]
  refine ⟨rfl, rfl, ?_⟩
  have hP2l₁ : ∀ y ∈ l₁, decide (y.id = user.id ∧
      (y.devices.any fun d => decide (d.registrationCode = some regCode)) = true) = false := by
    intro y hy
    have hany : (y.devices.any fun d => decide (d.registrationCode = some regCode)) = false := by
      simp only [List.any_eq_false]
      intro d hd
      simp [hfresh y (List.mem_append_left _ hy) d hd]
    simp [hany]
  rw [updateOne_append_left _ _ l₂ hP2l₁ (by simp [List.any_append])]
  refine ⟨_, find?_append_left _ l₂ hl₁ hx, ?_⟩
  dsimp only
  rw [updateOne_append_left _ _ ([] : List Device) hdevfresh (by simp)]
  exact find?_append_left _ ([] : List Device)
    (fun d hd => by simp [huuid d hd]) (by simp)

/-- C9, witness: the round trip on a fresh single-account store, where
the generated code and device id collide with nothing. -/
theorem C9_witness :
    (DevicesRoute.POST [Examples.freshUser] "u1" "phone" "pkA" "123456" "d1" 1).1.success = true ∧
    (DevicesVerify.POST (DevicesRoute.POST [Examples.freshUser] "u1" "phone" "pkA" "123456" "d1" 1).2 "123456" "phone2" "pkB" 2).1.success = true ∧
    (DevicesVerify.POST (DevicesRoute.POST [Examples.freshUser] "u1" "phone" "pkA" "123456" "d1" 1).2 "123456" "phone2" "pkB" 2).1.deviceId = some "d1" ∧
    ∃ u', ((DevicesVerify.POST (DevicesRoute.POST [Examples.freshUser] "u1" "phone" "pkA" "123456" "d1" 1).2 "123456" "phone2" "pkB" 2).2).find? (fun u => u.id = "u1") = some u' ∧
      u'.devices.find? (fun d => d.id = "d1") =
        some { id := "d1", name := "phone2", publicKey := "pkB", lastUsed := 2, createdAt := 1, isVerified := true, registrationCode := none } :=
  C9_theorem [Examples.freshUser] "u1" "phone" "pkA" "123456" "d1" "phone2" "pkB" 1 2
    Examples.freshUser (by decide) (by decide) (by decide) (by decide) (by decide)
    (by decide) (by decide) (by decide) (by decide)

/-- C10: completing an approved, unexpired login challenge succeeds and
rewrites the stored account beyond the challenge status and timestamps —
twoFactorEnabled is forced to true and deviceRegistrationRequired to
false, for every account, whether or not it has any verified device. -/
theorem C10_theorem (users : List User) (challenges : List Challenge)
    (challengeId : String) (vc : Option String) (now : Nat)
    (ch : Challenge) (user : User)
    (hcid : ¬ challengeId = "")
    (hch : challenges.find? (fun c => c.id = challengeId) = some ch)
    (hexp : ¬ now > ch.expiresAt)
    (hreset : ch.isPasswordReset = false)
    (happr : ch.status = Status.approved)
    (huser : users.find? (fun u => u.id = ch.userId) = some user) :
    (CompleteAuth.POST users challenges challengeId vc now).1.success = true ∧
    ((CompleteAuth.POST users challenges challengeId vc now).2.1).find?
        (fun u => u.id = ch.userId) =
      some { user with
             lastLoginAt := now,
             updatedAt := now,
             twoFactorEnabled := true,
             deviceRegistrationRequired := false } := by
  rw [CompleteAuth_POST_spec users challenges challengeId vc now hcid hch hexp hreset
    happr huser]
  refine ⟨rfl, ?_⟩
  have hid : user.id = ch.userId := by simpa using List.find?_some huser
  obtain ⟨l₁, l₂, hl, hl₁, hx⟩ := find?_split _ huser
  subst hl
  rw [← hid] at hl₁ hx ⊢
  rw [updateOne_append_left _ _ l₂ hl₁ hx]
  exact find?_append_left _ l₂ hl₁ hx

/-- C10, witness: an account with no devices at all still comes out of
login completion with twoFactorEnabled true and
deviceRegistrationRequired false. -/
theorem C10_witness :
    (CompleteAuth.POST [Examples.daveUser] [Examples.approvedChallenge] "c2" none 3).1.success = true ∧
    ((CompleteAuth.POST [Examples.daveUser] [Examples.approvedChallenge] "c2" none 3).2.1).find?
        (fun u => u.id = Examples.approvedChallenge.userId) =
      some { Examples.daveUser with
             lastLoginAt := 3,
             updatedAt := 3,
             twoFactorEnabled := true,
             deviceRegistrationRequired := false } :=
  C10_theorem [Examples.daveUser] [Examples.approvedChallenge] "c2" none 3
    Examples.approvedChallenge Examples.daveUser (by decide) (by decide) (by decide)
    (by decide) (by decide) (by decide)

end PM
